import Mathlib

/-!
Verification of the property-marshaling core of the wyze-sdk repository.

The Python sources are shallowly embedded: JSON-like values become the
inductive `JVal`, Python dicts become ordered association lists, Python
exceptions become an explicit `Except PyErr` result, and each relevant
Python function is translated line by line into a Lean definition.
-/

set_option maxRecDepth 4000

namespace WyzeSdk

/-- A JSON-like Python value: the payloads the backend sends and the values
held by device records.  `vdatetime` stands for a `datetime.datetime`
carrying its epoch-milliseconds, `vbytes` for a `bytes` object. -/
inductive JVal where
  | vnull
  | vbool (b : Bool)
  | vint (n : Int)
  | vstr (s : String)
  | vdatetime (ms : Int)
  | vbytes (bs : List Nat)
  | vlist (xs : List JVal)
  | vdict (entries : List (String × JVal))
  deriving Repr

/-- Python dictionaries are modelled as ordered association lists with
unique keys; all operations use the first binding of a key. -/
abbrev Bag := List (String × JVal)

/-- Python exceptions that the embedded code can raise. -/
inductive PyErr where
  | attributeError (name : String)
  | typeError (msg : String)
  | valueError (msg : String)
  | keyError (key : String)
  | recursionError
  | binasciiError
  | zlibError
  | protobufDecoderError
  | jsonDecodeError
  | wyzeRequestError (msg : String)
  | wyzeObjectFormationError (msg : String)
  | wyzeApiError (msg : String) (responseData : JVal)
  deriving Repr

namespace JVal

/-- Structural equality on `JVal` (used by the embedding internally). -/
def beq : JVal → JVal → Bool
  | vnull, vnull => true
  | vbool a, vbool b => a == b
  | vint a, vint b => a == b
  | vstr a, vstr b => a == b
  | vdatetime a, vdatetime b => a == b
  | vbytes a, vbytes b => a == b
  | vlist xs, vlist ys => beqList xs ys
  | vdict xs, vdict ys => beqBag xs ys
  | _, _ => false
where
  beqList : List JVal → List JVal → Bool
    | [], [] => true
    | x :: xs, y :: ys => beq x y && beqList xs ys
    | _, _ => false
  beqBag : List (String × JVal) → List (String × JVal) → Bool
    | [], [] => true
    | (k, x) :: xs, (l, y) :: ys => k == l && beq x y && beqBag xs ys
    | _, _ => false

instance : BEq JVal := ⟨beq⟩

end JVal

/-- Python `==` between two embedded values.  Follows CPython semantics on
the primitives that occur in the repository: `bool` compares equal to the
`int` it stands for (`True == 1`), strings never compare equal to numbers,
and containers compare element-wise. -/
def pyEq : JVal → JVal → Bool
  | .vnull, .vnull => true
  | .vbool a, .vbool b => a == b
  | .vbool a, .vint b => (if a then (1 : Int) else 0) == b
  | .vint a, .vbool b => a == (if b then (1 : Int) else 0)
  | .vint a, .vint b => a == b
  | .vstr a, .vstr b => a == b
  | .vdatetime a, .vdatetime b => a == b
  | .vbytes a, .vbytes b => a == b
  | .vlist xs, .vlist ys => pyEqList xs ys
  | .vdict xs, .vdict ys => pyEqBag xs ys
  | _, _ => false
where
  pyEqList : List JVal → List JVal → Bool
    | [], [] => true
    | x :: xs, y :: ys => pyEq x y && pyEqList xs ys
    | _, _ => false
  pyEqBag : List (String × JVal) → List (String × JVal) → Bool
    | [], [] => true
    | (k, x) :: xs, (l, y) :: ys => k == l && pyEq x y && pyEqBag xs ys
    | _, _ => false

/-- Python truthiness (`bool(v)`): `None`, `False`, `0`, empty strings and
empty containers are falsy. -/
def truthy : JVal → Bool
  | .vnull => false
  | .vbool b => b
  | .vint n => n != 0
  | .vstr s => s ≠ ""
  | .vdatetime _ => true
  | .vbytes bs => !bs.isEmpty
  | .vlist xs => !xs.isEmpty
  | .vdict xs => !xs.isEmpty

/-- Python `not v`. -/
def pyNot (v : JVal) : Bool := !truthy v

/-- Python `str(v)` for the primitive values the repository converts. -/
def pyStr : JVal → String
  | .vnull => "None"
  | .vbool b => if b then "True" else "False"
  | .vint n => toString n
  | .vstr s => s
  | .vdatetime ms => "datetime<" ++ toString ms ++ ">"
  | .vbytes _ => "<bytes>"
  | .vlist _ => "<list>"
  | .vdict _ => "<dict>"

/-- Python `repr` as used by f-string interpolation of a whole dict
(`f"\x7bself.data\x7d"`): dict entries are rendered `'key': value` with
strings quoted. -/
def pyRepr : JVal → String
  | .vnull => "None"
  | .vbool b => if b then "True" else "False"
  | .vint n => toString n
  | .vstr s => "\x27" ++ s ++ "\x27"
  | .vdatetime ms => "datetime<" ++ toString ms ++ ">"
  | .vbytes _ => "<bytes>"
  | .vlist xs => "[" ++ String.intercalate ", " (pyReprList xs) ++ "]"
  | .vdict xs => "\x7b" ++ String.intercalate ", " (pyReprBag xs) ++ "\x7d"
where
  pyReprList : List JVal → List String
    | [] => []
    | x :: xs => pyRepr x :: pyReprList xs
  pyReprBag : List (String × JVal) → List String
    | [] => []
    | (k, v) :: xs => ("\x27" ++ k ++ "\x27: " ++ pyRepr v) :: pyReprBag xs

/-- First binding of `k` in a dict. -/
def dictGet (d : Bag) (k : String) : Option JVal :=
  match d with
  | [] => none
  | (l, v) :: rest => if l == k then some v else dictGet rest k

/-- `d.get(k, default)`. -/
def dictGetD (d : Bag) (k : String) (default : JVal) : JVal :=
  (dictGet d k).getD default

/-- `k in d` for a dict. -/
def dictMem (d : Bag) (k : String) : Bool :=
  (dictGet d k).isSome

/-- Remove the first binding of `k` (the mutation performed by
`dict.pop`). -/
def dictErase (d : Bag) (k : String) : Bag :=
  match d with
  | [] => []
  | (l, v) :: rest => if l == k then rest else (l, v) :: dictErase rest k

/-- The keys of a dict, in order. -/
def dictKeys (d : Bag) : List String := d.map Prod.fst

/-- Lower-casing a string (character-list implementation of
`str.lower`). -/
def strLower (s : String) : String := String.mk (s.data.map Char.toLower)

/-- Whitespace for `str.strip` / `int()` argument stripping. -/
def strIsWs (c : Char) : Bool := c = ' ' ∨ c = '\t' ∨ c = '\n' ∨ c = '\r'

/-- Strip leading and trailing whitespace (character-list implementation
of `str.strip`). -/
def strTrim (s : String) : String :=
  String.mk (((s.data.dropWhile strIsWs).reverse.dropWhile strIsWs).reverse)

/-- Prefix test on character lists. -/
def leadsWith : List Char → List Char → Bool
  | [], _ => true
  | _, [] => false
  | a :: as, b :: bs => a == b && leadsWith as bs

/-- Substring test on character lists (Python `needle in hay`). -/
def hasSubstr (needle : List Char) : List Char → Bool
  | [] => leadsWith needle []
  | c :: t => leadsWith needle (c :: t) || hasSubstr needle t

/-- `distutils.util.strtobool`: maps recognised truthy/falsy strings to
`1`/`0` and raises `ValueError` otherwise. -/
def strtobool (s : String) : Except PyErr Nat :=
  let v := strLower s
  if v = "y" ∨ v = "yes" ∨ v = "t" ∨ v = "true" ∨ v = "on" ∨ v = "1" then .ok 1
  else if v = "n" ∨ v = "no" ∨ v = "f" ∨ v = "false" ∨ v = "off" ∨ v = "0" then .ok 0
  else .error (.valueError ("invalid truth value " ++ v))

/-- The Python types that appear as `PropDef` semantic/wire types in the
repository. -/
inductive PType where
  | pbool
  | pint
  | pstr
  deriving Repr, DecidableEq

/-- `isinstance(v, t)`; note that `bool` is a subclass of `int` in
Python, so booleans are instances of `int`. -/
def pyIsInstance (v : JVal) (t : PType) : Bool :=
  match t, v with
  | .pbool, .vbool _ => true
  | .pint, .vbool _ => true
  | .pint, .vint _ => true
  | .pstr, .vstr _ => true
  | _, _ => false

/-- The digits of a stripped, unsigned decimal numeral. -/
def digitsCore (s : String) : List Char :=
  match (strTrim s).data with
  | '-' :: rest => rest
  | '+' :: rest => rest
  | rest => rest

/-- Whether a decimal string is acceptable to Python `int()`. -/
def intStringOk (s : String) : Bool :=
  !(digitsCore s).isEmpty && (digitsCore s).all Char.isDigit

/-- The numeric value of a list of decimal digits. -/
def digitsVal (cs : List Char) : Nat :=
  cs.foldl (fun acc c => acc * 10 + (c.toNat - 48)) 0

/-- Parse the strings acceptable to Python `int()`. -/
def intStringVal (s : String) : Int :=
  match (strTrim s).data with
  | '-' :: rest => -(digitsVal rest : Int)
  | '+' :: rest => (digitsVal rest : Int)
  | rest => (digitsVal rest : Int)

/-- Python `int(v)`: identity on ints, `0`/`1` on bools, decimal parsing
on strings (`ValueError` when unparsable), `TypeError` on everything
else. -/
def pyIntCoerce : JVal → Except PyErr Int
  | .vint n => .ok n
  | .vbool b => .ok (if b then 1 else 0)
  | .vstr s => if intStringOk s then .ok (intStringVal s) else .error (.valueError ("invalid literal for int: " ++ s))
  | .vnull => .error (.typeError "int() argument must not be None")
  | v => .error (.typeError ("int() argument of bad type " ++ pyStr v))

/-- A plain Python constructor call `t(v)`: `bool(v)` is truthiness and
never raises, `int(v)` and `str(v)` behave as above. -/
def pyTypeCall (t : PType) (v : JVal) : Except PyErr JVal :=
  match t with
  | .pbool => .ok (.vbool (truthy v))
  | .pint => (pyIntCoerce v).map .vint
  | .pstr => .ok (.vstr (pyStr v))

/-- Coerce a raw value into a semantic type the way both
`PropDef.validate` and `DeviceProp.__init__` do:
`bool(distutils.util.strtobool(str(value)))` for booleans, `type(value)`
otherwise. -/
def coerceToType (t : PType) (v : JVal) : Except PyErr JVal :=
  match t with
  | .pbool => (strtobool (pyStr v)).map (fun n => .vbool (n == 1))
  | .pint => (pyIntCoerce v).map .vint
  | .pstr => .ok (.vstr (pyStr v))

/-- An `acceptable_values` constraint: either an explicit list or a Python
`range(lo, hi)` (which contains `lo .. hi-1`). -/
inductive AcceptSet where
  | explicitList (vs : List JVal)
  | intRange (lo hi : Int)
  deriving Repr

/-- Python `v in acceptable_values`. Membership in a list uses `==`
element-wise; membership in a `range` holds for the ints (and bools,
which equal their int value) it contains. -/
def acceptMem (v : JVal) (a : AcceptSet) : Bool :=
  match a with
  | .explicitList vs => vs.any (fun w => pyEq v w)
  | .intRange lo hi =>
      match v with
      | .vint n => lo ≤ n && n < hi
      | .vbool b => lo ≤ (if b then (1 : Int) else 0) && (if b then (1 : Int) else 0) < hi
      | _ => false

/-- `wyze_sdk.models.PropDef`: the translation definition between API data
properties and python equivalents (`pid`, semantic `type`, optional
`api_type`, optional `acceptable_values`). -/
structure PropDef where
  pid : String
  type : PType
  api_type : Option PType := none
  acceptable_values : Option AcceptSet := none
  deriving Repr

/-- `PropDef.validate` translated from `wyze_sdk/models/__init__.py`:
if the value is not an instance of the semantic type, attempt the
coercion (only `TypeError` is converted into `WyzeRequestError`; a
`ValueError` from the coercion propagates).  With no
`acceptable_values` the check passes; with a member value it passes;
otherwise the failure branch formats `self.acceptable_values`, an
attribute `PropDef` does not define, so an `AttributeError` is raised
while building the intended `WyzeRequestError` message. -/
def PropDef.validate (d : PropDef) (v : JVal) : Except PyErr Unit := do
  let value ← (
    if pyIsInstance v d.type then pure v
    else
      match coerceToType d.type v with
      | .ok w => pure w
      | .error (.typeError _) =>
          Except.error (.wyzeRequestError (pyStr v ++ " must be of type " ++ reprStr d.type))
      | .error e => Except.error e)
  match d.acceptable_values with
  | none => pure ()
  | some a =>
      if acceptMem value a then pure ()
      else Except.error (.attributeError "acceptable_values")

/-- `wyze_sdk.models.epoch_to_datetime(epoch, ms=True)`: numbers (bools
included) become datetimes; any other input falls off the function and
yields `None`. -/
def epoch_to_datetime_ms (v : JVal) : JVal :=
  match v with
  | .vint n => .vdatetime n
  | .vbool b => .vdatetime (if b then 1 else 0)
  | _ => .vnull

/-- `wyze_sdk.models.devices.base.DeviceProp`.  `tsAttr = none` models a
`DeviceProp` whose `_ts` attribute was never assigned (the `__init__`
only assigns it when a timestamp argument is given); reading `.ts` on
such an object raises `AttributeError`. -/
structure DeviceProp where
  definition : PropDef
  tsAttr : Option JVal := none
  value : JVal
  deriving Repr

/-- The `_ts` assignment of `DeviceProp.__init__`: a datetime is stored
as is, a non-`None` value goes through `epoch_to_datetime(ts, ms=True)`,
and `None` leaves the attribute unassigned. -/
def tsAttrOf (ts : JVal) : Option JVal :=
  match ts with
  | .vdatetime n => some (.vdatetime n)
  | .vnull => none
  | v => some (epoch_to_datetime_ms v)

/-- `DeviceProp.__init__` translated from
`wyze_sdk/models/devices/base.py`.  `ts` and `value` arrive as raw
values (`vnull` when the keyword was not supplied).  A non-`None` value
that is not an instance of the semantic type is coerced; only
`ValueError` is caught (logged), in which case the raw value is stored
unchanged.  The returned flag records whether that warning was
logged. -/
def DeviceProp.make (definition : PropDef) (ts : JVal) (value : JVal) :
    Except PyErr (DeviceProp × Bool) := do
  let tsAttr : Option JVal := tsAttrOf ts
  if value == JVal.vnull ∨ pyIsInstance value definition.type then
    return (⟨definition, tsAttr, value⟩, false)
  else
    match coerceToType definition.type value with
    | .ok w => return (⟨definition, tsAttr, w⟩, false)
    | .error (.valueError _) => return (⟨definition, tsAttr, value⟩, true)
    | .error e => Except.error e

/-- The `DeviceProp.ts` property: raises `AttributeError` when `_ts` was
never assigned. -/
def DeviceProp.ts (p : DeviceProp) : Except PyErr JVal :=
  match p.tsAttr with
  | none => .error (.attributeError "_ts")
  | some t => .ok t

/-- `DeviceProp.api_value` translated from
`wyze_sdk/models/devices/base.py`: no `api_type` returns the value
unchanged; a boolean semantic type renders as `int(value)` or
`str(int(value))` (these conversions are outside any `try`, so their
errors propagate); otherwise a value already of the api type is
returned as is, and the general conversion catches only `ValueError`
(falling off the function, i.e. returning `None`). -/
def DeviceProp.api_value (p : DeviceProp) : Except PyErr JVal :=
  match p.definition.api_type with
  | none => .ok p.value
  | some api =>
      if p.definition.type = .pbool ∧ api = .pint then
        (pyIntCoerce p.value).map .vint
      else if p.definition.type = .pbool ∧ api = .pstr then
        (pyIntCoerce p.value).map (fun n => .vstr (toString n))
      else if pyIsInstance p.value api then
        .ok p.value
      else
        match pyTypeCall api p.value with
        | .ok w => .ok w
        | .error (.valueError _) => .ok .vnull
        | .error e => .error e

/-- Python `s in container` for a string `s`: key membership for dicts,
`==`-scan for lists, substring test for strings, `TypeError`
otherwise. -/
def pyIn (s : String) : JVal → Except PyErr Bool
  | .vdict d => .ok (dictMem d s)
  | .vlist xs => .ok (xs.any (fun x => pyEq (.vstr s) x))
  | .vstr t => .ok (hasSubstr s.data t.data)
  | _ => .error (.typeError "argument is not iterable")

/-- Python `v[k]` for a string key `k`. -/
def pySubscriptStr (v : JVal) (k : String) : Except PyErr JVal :=
  match v with
  | .vdict d =>
      match dictGet d k with
      | some w => .ok w
      | none => .error (.keyError k)
  | .vlist _ => .error (.typeError "list indices must be integers")
  | .vstr _ => .error (.typeError "string indices must be integers")
  | _ => .error (.typeError "object is not subscriptable")

/-- Replace the binding of `k` in place (dict mutation through a shared
reference). -/
def dictSet (d : Bag) (k : String) (v : JVal) : Bag :=
  match d with
  | [] => []
  | (l, w) :: rest => if l == k then (l, v) :: rest else (l, w) :: dictSet rest k v

/-- The scan `for property in property_list: if name == property[sq pid sq]:
return property[sq value sq]` from `JsonObject._extract_attribute`. -/
def scanPlistEntries (name : String) : List JVal → Except PyErr (Option JVal)
  | [] => .ok none
  | e :: rest => do
      let p ← pySubscriptStr e "pid"
      if pyEq (.vstr name) p then pySubscriptStr e "value"
      else scanPlistEntries name rest

/-- Iterating a `property_list` value in `_extract_attribute`: lists scan
their entries; iterating a non-empty string, dict or bytes produces
elements on which the `property[sq pid sq]` subscript raises. -/
def scanPropertyList (name : String) : JVal → Except PyErr (Option JVal)
  | .vlist xs => scanPlistEntries name xs
  | .vstr s => if s = "" then .ok none else .error (.typeError "string indices must be integers")
  | .vdict d => if d.isEmpty then .ok none else .error (.typeError "string indices must be integers")
  | .vbytes bs => if bs.isEmpty then .ok none else .error (.typeError "object is not subscriptable")
  | _ => .error (.typeError "object is not iterable")

/-- `JsonObject._extract_attribute` translated from
`wyze_sdk/models/__init__.py`, lines 60-77.  The input dict is threaded
explicitly because the Python code mutates it: a direct top-level match
is `pop`-ped, and the recursive calls on `device_params` /
`device_setting` pop from those nested (shared) dicts.  The branches
form a single `if`/`elif` chain keyed on container presence: a present
`property_list` that lacks the pid ends the lookup without consulting
the remaining locations.  `fuel` bounds the recursion depth (Python has
a recursion limit); each recursive call is guarded by
`name in others[...]`, so one unit of fuel is consumed per nesting
level. -/
def extract_attribute (fuel : Nat) (name : String) (others : JVal) :
    Except PyErr (Option JVal × JVal) :=
  match fuel with
  | 0 => .error .recursionError
  | fuel + 1 =>
    match others with
    | .vdict d =>
        if dictMem d name then
          .ok (dictGet d name, .vdict (dictErase d name))
        else if dictMem d "property_list" then do
          let r ← scanPropertyList name (dictGetD d "property_list" .vnull)
          pure (r, .vdict d)
        else
          let rest45 : Except PyErr (Option JVal × JVal) :=
            match dictGet d "device_params" with
            | some dp =>
                (do
                  let g ← pyIn name dp
                  if g then do
                    let (r, dp2) ← extract_attribute fuel name dp
                    pure (r, .vdict (dictSet d "device_params" dp2))
                  else
                    match dictGet d "device_setting" with
                    | some ds => do
                        let g2 ← pyIn name ds
                        if g2 then do
                          let (r, ds2) ← extract_attribute fuel name ds
                          pure (r, .vdict (dictSet d "device_setting" ds2))
                        else pure (none, .vdict d)
                    | none => pure (none, .vdict d))
            | none =>
                match dictGet d "device_setting" with
                | some ds =>
                    (do
                      let g2 ← pyIn name ds
                      if g2 then do
                        let (r, ds2) ← extract_attribute fuel name ds
                        pure (r, .vdict (dictSet d "device_setting" ds2))
                      else pure (none, .vdict d))
                | none => .ok (none, .vdict d)
          match dictGet d "data" with
          | some dataV =>
              (do
                let g ← pyIn "property_list" dataV
                if g then
                  match dataV with
                  | .vdict dd => do
                      let r ← scanPropertyList name (dictGetD dd "property_list" .vnull)
                      pure (r, .vdict d)
                  | _ => Except.error (.typeError "indices must be integers")
                else rest45)
          | none => rest45
    | other => do
        let hasName ← pyIn name other
        if hasName then
          match other with
          | .vlist _ => Except.error (.typeError "pop expected an integer index")
          | _ => Except.error (.attributeError "pop")
        else do
          let hasPl ← pyIn "property_list" other
          if hasPl then Except.error (.typeError "indices must be integers")
          else do
            let hasData ← pyIn "data" other
            if hasData then Except.error (.typeError "indices must be integers")
            else do
              let hasDp ← pyIn "device_params" other
              if hasDp then Except.error (.typeError "indices must be integers")
              else do
                let hasDs ← pyIn "device_setting" other
                if hasDs then Except.error (.typeError "indices must be integers")
                else pure (none, other)

/-- The dict-shaped branch of `Device._extract_property`:
`for key, value in others.items(): if key == pid: return
DeviceProp(definition=prop_def, value=value)`. -/
def scanDictItems (pd : PropDef) : Bag → Except PyErr (Option DeviceProp)
  | [] => .ok none
  | (k, v) :: rest =>
      if k == pd.pid then (DeviceProp.make pd .vnull v).map (fun x => some x.1)
      else scanDictItems pd rest

/-- The list-shaped branch of `Device._extract_property`:
`for value in others: if "pid" in value and prop_def.pid == value["pid"]:
return DeviceProp(definition=prop_def, **value)`.  The keyword
expansion passes any `ts` / `value` keys of the entry to
`DeviceProp.__init__` (a `definition` key would collide with the
explicit keyword). -/
def scanPropEntries (pd : PropDef) : List JVal → Except PyErr (Option DeviceProp)
  | [] => .ok none
  | e :: rest => do
      let g ← pyIn "pid" e
      if g then do
        let p ← pySubscriptStr e "pid"
        if pyEq (.vstr pd.pid) p then
          match e with
          | .vdict ed =>
              if dictMem ed "definition" then
                Except.error (.typeError "got multiple values for argument definition")
              else do
                let (dp, _) ← DeviceProp.make pd (dictGetD ed "ts" .vnull) (dictGetD ed "value" .vnull)
                pure (some dp)
          | _ => Except.error (.typeError "argument after ** must be a mapping")
        else scanPropEntries pd rest
      else scanPropEntries pd rest

/-- `Device._extract_property` translated from
`wyze_sdk/models/devices/base.py`, lines 319-341.  Unlike
`_extract_attribute` it never mutates its input; dicts first chase
`data` (when it holds a `property_list`), then `props`, then
`property_list`, then scan their own items; non-dicts are iterated as
lists of `pid`-keyed entries.  Iterating a string yields one-character
strings for which `"pid" in value` is false, so the scan falls through
to `None`. -/
def extract_property (fuel : Nat) (pd : PropDef) (others : JVal) :
    Except PyErr (Option DeviceProp) :=
  match others with
  | .vdict d =>
      (match fuel with
       | 0 => .error .recursionError
       | fuel + 1 =>
          let rest1 : Except PyErr (Option DeviceProp) :=
            if dictMem d "props" then extract_property fuel pd (dictGetD d "props" .vnull)
            else if dictMem d "property_list" then
              extract_property fuel pd (dictGetD d "property_list" .vnull)
            else scanDictItems pd d
          match dictGet d "data" with
          | some dataV =>
              (match pyIn "property_list" dataV with
               | .error e => .error e
               | .ok true => extract_property fuel pd dataV
               | .ok false => rest1)
          | none => rest1)
  | .vlist xs => scanPropEntries pd xs
  | .vstr _ => .ok none
  | .vbytes bs =>
      if bs.isEmpty then .ok none
      else .error (.typeError "argument of type int is not iterable")
  | _ => .error (.typeError "object is not iterable")

/-- `LockProps.lock_state`: `PropDef("switch_state", bool, int)`. -/
def LockProps.lock_state : PropDef := { pid := "switch_state", type := .pbool, api_type := some .pint }

/-- `LockProps.locker_lock_state`: `PropDef("hardlock", int,
acceptable_values=range(-1, 6))`. -/
def LockProps.locker_lock_state : PropDef :=
  { pid := "hardlock", type := .pint, acceptable_values := some (.intRange (-1) 6) }

/-- The non-`locker_status` path of `Lock._extract_lock_state` (locks.py
lines 831-833): re-extract `switch_state` and rebuild the property with
the negated value (`value=not prop.value`), per the source comment: if
`switch_state == 1` the device is unlocked.  Keyword evaluation order
makes `prop.definition` the first attribute read, so an absent property
raises `AttributeError` on `None`, and a property built without a
timestamp raises `AttributeError` on `prop.ts`. -/
def Lock.extract_lock_state_fallback (fuel : Nat) (others : Bag) :
    Except PyErr (DeviceProp × Bag) := do
  let propOpt ← extract_property fuel LockProps.lock_state (.vdict others)
  match propOpt with
  | none => Except.error (.attributeError "definition")
  | some prop => do
      let ts ← prop.ts
      let (r, _) ← DeviceProp.make prop.definition ts (.vbool (pyNot prop.value))
      pure (r, others)

/-- `Lock._extract_lock_state` translated from
`wyze_sdk/models/devices/locks.py`, lines 823-833: when
`device_params.locker_status` exists the `hardlock` property and its
refresh time are read from it (that read pops the refresh-time key from
the shared nested dict); otherwise the `switch_state` bit-flip fallback
runs. -/
def Lock.extract_lock_state (fuel : Nat) (others : Bag) :
    Except PyErr (DeviceProp × Bag) := do
  match dictGet others "device_params" with
  | some dp =>
      (do
        let g ← pyIn "locker_status" dp
        if g then do
          let locker ← pySubscriptStr dp "locker_status"
          let pd := LockProps.locker_lock_state
          let value ← extract_property fuel pd locker
          let (ts, locker2) ← extract_attribute fuel (pd.pid ++ "_refreshtime") locker
          match value with
          | none => Except.error (.attributeError "value")
          | some vp => do
              let dp2 ←
                match dp with
                | .vdict dpd => pure (JVal.vdict (dictSet dpd "locker_status" locker2))
                | _ => Except.error (.typeError "object is not subscriptable")
              let (r, _) ← DeviceProp.make pd (ts.getD .vnull) vp.value
              pure (r, dictSet others "device_params" dp2)
        else Lock.extract_lock_state_fallback fuel others)
  | none => Lock.extract_lock_state_fallback fuel others

/-- `LockableMixin.lock_state` (base.py line 476): `False` when the
stored property is absent, otherwise the stored value. -/
def lock_state_getter (p : Option DeviceProp) : JVal :=
  match p with
  | none => .vbool false
  | some q => q.value

/-- `Lock.is_locked` translated from `wyze_sdk/models/devices/locks.py`,
lines 856-864.  `super().lock_state` yields the property *value* (or
`False`), not the `DeviceProp`, so unless that value is `None` the
subsequent `super().lock_state.definition.type` access raises
`AttributeError` - no embedded JSON value carries a `definition`
attribute. -/
def Lock.is_locked (p : Option DeviceProp) : Except PyErr JVal :=
  if lock_state_getter p == JVal.vnull then .ok (.vbool false)
  else .error (.attributeError "definition")

/-- How an f-string renders a value: strings are interpolated bare, while
containers use their `repr`. -/
def pyFormat (v : JVal) : String :=
  match v with
  | .vstr s => s
  | .vdict _ => pyRepr v
  | .vlist _ => pyRepr v
  | v => pyStr v

/-- `wyze_sdk.service.wyze_response.WyzeResponse`: status code and JSON
body (or raw bytes). -/
structure WyzeResponse where
  status_code : Int
  data : JVal
  deriving Repr

/-- `WyzeResponse.validate` translated from
`wyze_sdk/service/wyze_response.py`, lines 83-162: success means HTTP
200, a truthy body, and either binary data or
`int(self.data.get("code", 1)) == 1`; everything else raises
`WyzeApiError` with the fixed message
`"The request to the Wyze API failed."` followed by the formatted
response body (the commented-out per-code message mapping is not
executed). -/
def WyzeResponse.validate (r : WyzeResponse) : Except PyErr WyzeResponse := do
  let success ←
    if r.status_code = 200 ∧ truthy r.data then
      match r.data with
      | .vbytes _ => pure true
      | .vdict d => (pyIntCoerce (dictGetD d "code" (.vint 1))).map (fun n => n == 1)
      | _ => Except.error (.attributeError "get")
    else pure false
  if success then pure r
  else do
    let body ←
      match r.data with
      | .vbytes _ => Except.error (.valueError "binary data unsupported")
      | d => pure (pyFormat d)
    Except.error (.wyzeApiError
      ("The request to the Wyze API failed." ++ "\nThe server responded with: " ++ body)
      r.data)

/-- The three external decoding stages used by `VacuumMap.parse_blob`
(`base64.b64decode`, `zlib.decompress`,
`blackboxprotobuf.protobuf_to_json` followed by `json.loads`).  They are
library calls, not code of this repository, so they enter the embedding
as parameters; each returns its result or the exception the library
raises (`binascii.Error`, `zlib.error`, a protobuf decoder error, a
JSON decode error). -/
structure BlobCodec where
  b64decode : String → Except PyErr (List Nat)
  zlibDecompress : List Nat → Except PyErr (List Nat)
  protobufToJson : List Nat → Except PyErr String
  jsonLoads : String → Except PyErr JVal

/-- `VacuumMap.parse_blob` translated from
`wyze_sdk/models/devices/vacuums.py`, lines 713-746: `None` yields an
empty dict; otherwise base64-decode, inflate, protobuf-decode and
JSON-parse run inside a `try` whose `except` clause catches exactly
`(binascii.Error, zlib.error)` and re-raises them as
`WyzeObjectFormationError`.  Errors of the other stages propagate
unchanged.  (The `b64encode`/`b64decode` round trip before the protobuf
stage is the identity on bytes and the `compressed is None` check is
dead, `b64decode` always returns bytes.) -/
def parse_blob (c : BlobCodec) (blob : Option String) : Except PyErr JVal :=
  match blob with
  | none => .ok (.vdict [])
  | some b =>
    let body : Except PyErr JVal := do
      let compressed ← c.b64decode b
      let decompressed ← c.zlibDecompress compressed
      let mapText ← c.protobufToJson decompressed
      c.jsonLoads mapText
    match body with
    | .error .binasciiError =>
        .error (.wyzeObjectFormationError "encountered an error parsing map blob")
    | .error .zlibError =>
        .error (.wyzeObjectFormationError "encountered an error parsing map blob")
    | r => r

/-- `wyze_sdk.models.show_unknown_key_warning` (models/__init__.py lines
30-44): pops `type` and `product_type`, then logs the remaining keys if
any.  Returns the mutated dict together with the list of keys that were
logged. -/
def show_unknown_key_warning (others : Bag) : Bag × List String :=
  let o1 := dictErase others "type"
  let o2 := dictErase o1 "product_type"
  (o2, if o2.length > 0 then dictKeys o2 else [])

/-- `is_not_empty` from `JsonObject.get_non_null_attributes`: `None` is
empty, sized values are empty iff their length is zero, everything else
is non-empty. -/
def is_not_empty (v : JVal) : Bool :=
  match v with
  | .vnull => false
  | .vstr s => s.length > 0
  | .vlist xs => !xs.isEmpty
  | .vdict d => !d.isEmpty
  | .vbytes bs => !bs.isEmpty
  | _ => true

/-- Lexicographic code-point comparison on character lists (the order
Python `sorted` uses on strings). -/
def charListLe : List Char → List Char → Bool
  | [], _ => true
  | _ :: _, [] => false
  | a :: as, b :: bs =>
      if a == b then charListLe as bs else decide (a.toNat < b.toNat)

/-- `s <= t` for strings, computably. -/
def strLeB (s t : String) : Bool := charListLe s.data t.data

/-- Insertion into a sorted list of strings. -/
def insertSorted (s : String) : List String → List String
  | [] => [s]
  | t :: rest => if strLeB s t then s :: t :: rest else t :: insertSorted s rest

/-- `sorted(...)` on a list of strings. -/
def sortStrings : List String → List String
  | [] => []
  | s :: rest => insertSorted s (sortStrings rest)

/-- `JsonObject.get_non_null_attributes` (models/__init__.py lines
89-122): a dict built from the sorted declared attribute names, keeping
exactly the keys whose looked-up value is non-empty.  (`getter` plays
the role of `getattr(self, key, None)`; `to_dict_compatible` is the
identity on the primitive values the exported keys hold.) -/
def get_non_null_attributes (attrs : List String) (getter : String → JVal) : Bag :=
  (sortStrings attrs).filterMap
    (fun k => if is_not_empty (getter k) then some (k, getter k) else none)

/-- `DeviceProps.online_state`: `PropDef("P5", bool, int, [0, 1])`. -/
def DeviceProps.online_state : PropDef :=
  { pid := "P5", type := .pbool, api_type := some .pint,
    acceptable_values := some (.explicitList [.vint 0, .vint 1]) }

/-- `DeviceProps.power_state`: `PropDef("P3", bool, int, [0, 1])`. -/
def DeviceProps.power_state : PropDef :=
  { pid := "P3", type := .pbool, api_type := some .pint,
    acceptable_values := some (.explicitList [.vint 0, .vint 1]) }

/-- `PlugProps.status_light`: `PropDef("P13", bool)`. -/
def PlugProps.status_light : PropDef := { pid := "P13", type := .pbool }

/-- `PlugProps.away_mode`: `PropDef("P1614", bool)`. -/
def PlugProps.away_mode : PropDef := { pid := "P1614", type := .pbool }

/-- The state of a `Device` after `Device.__init__`
(`wyze_sdk/models/devices/base.py`, lines 223-273).  `vnull` marks
fields left as `None`. -/
structure Device where
  _type : JVal := .vnull
  _mac : JVal := .vnull
  _nickname : JVal := .vnull
  _is_online : Option DeviceProp := none
  _enr : JVal := .vnull
  _push_switch : JVal := .vnull
  _firmware_version : JVal := .vnull
  _hardware_version : JVal := .vnull
  _parent_device : Option (JVal × JVal) := none
  _product_logo_url : JVal := .vnull
  _product_model : JVal := .vnull
  _product_type : JVal := .vnull
  _timezone_offset : JVal := .vnull
  _timezone_name : JVal := .vnull
  _user_role : JVal := .vnull
  deriving Repr

/-- The keyword arguments `Device.__init__` binds by name (absent
keywords are `vnull`). -/
structure DeviceKw where
  type : JVal := .vnull
  mac : JVal := .vnull
  nickname : JVal := .vnull
  conn_state : JVal := .vnull
  conn_state_ts : JVal := .vnull
  enr : JVal := .vnull
  push_switch : JVal := .vnull
  firmware_ver : JVal := .vnull
  hardware_ver : JVal := .vnull
  parent_device_mac : JVal := .vnull
  parent_device_enr : JVal := .vnull
  product_model : JVal := .vnull
  product_model_logo_url : JVal := .vnull
  product_type : JVal := .vnull
  timezone_gmt_offset : JVal := .vnull
  timezone_name : JVal := .vnull
  user_role : JVal := .vnull

/-- `x if x is not None else self._extract_attribute(name, others)`,
threading the mutated dict. -/
def extractIfNull (fuel : Nat) (x : JVal) (name : String) (others : Bag) :
    Except PyErr (JVal × Bag) :=
  if !(x == JVal.vnull) then .ok (x, others)
  else do
    let (r, o) ← extract_attribute fuel name (.vdict others)
    match o with
    | .vdict d => pure (r.getD .vnull, d)
    | _ => pure (r.getD .vnull, [])

/-- `Device.__init__` translated from
`wyze_sdk/models/devices/base.py`, lines 223-273, in source order:
`_type`, `_is_online` (from the `conn_state` pair or extracted),
`_enr`, `_push_switch`, firmware/hardware versions, parent device,
`Product` (logo url, model, type), `Timezone` (offset, name),
`_user_role`.  The keyword-rest dict is threaded because the
extractions pop top-level matches from it. -/
def Device.init (fuel : Nat) (kw : DeviceKw) (others0 : Bag) :
    Except PyErr (Device × Bag) := do
  let (tv, o1) ← extractIfNull fuel kw.type "product_type" others0
  let tvOpt := tv
  let (isOnline : Option DeviceProp) ←
    if !(kw.conn_state == JVal.vnull) && !(kw.conn_state_ts == JVal.vnull) then
      (DeviceProp.make DeviceProps.online_state kw.conn_state_ts kw.conn_state).map
        (fun x => some x.1)
    else
      extract_property fuel DeviceProps.online_state (.vdict o1)
  let (fw, o2) ← extractIfNull fuel kw.firmware_ver "firmware_ver" o1
  let (hw, o3) ← extractIfNull fuel kw.hardware_ver "hardware_ver" o2
  let parent : Option (JVal × JVal) :=
    if !(kw.parent_device_mac == JVal.vnull) then some (kw.parent_device_mac, kw.parent_device_enr)
    else none
  let (logo, o4) ← extractIfNull fuel kw.product_model_logo_url "product_model_logo_url" o3
  let (pmodel, o5) ← extractIfNull fuel kw.product_model "product_model" o4
  let (ptype, o6) ← extractIfNull fuel kw.product_type "product_type" o5
  let (tzOff, o7) ← extractIfNull fuel kw.timezone_gmt_offset "timezone_gmt_offset" o6
  let (tzName, o8) ← extractIfNull fuel kw.timezone_name "timezone_name" o7
  pure ({ _type := tvOpt, _mac := kw.mac, _nickname := kw.nickname,
          _is_online := isOnline, _enr := kw.enr, _push_switch := kw.push_switch,
          _firmware_version := fw, _hardware_version := hw,
          _parent_device := parent, _product_logo_url := logo,
          _product_model := pmodel, _product_type := ptype,
          _timezone_offset := tzOff, _timezone_name := tzName,
          _user_role := kw.user_role }, o8)

/-- The parameter names `Device.__init__` captures out of a keyword
expansion. -/
def deviceParamNames : List String :=
  ["binding_ts", "binding_user_nickname", "conn_state", "conn_state_ts", "enr",
   "event_master_switch", "firmware_ver", "first_activation_ts", "first_binding_ts",
   "hardware_ver", "is_in_auto", "mac", "nickname", "parent_device_mac",
   "parent_device_enr", "product_model", "product_model_logo_url", "product_type",
   "push_switch", "timezone_gmt_offset", "timezone_name", "user_role"]

/-- Erase a list of keys from a dict. -/
def dictEraseAll (d : Bag) : List String → Bag
  | [] => d
  | k :: rest => dictEraseAll (dictErase d k) rest

/-- The state of a `Plug` after `Plug.__init__`
(`wyze_sdk/models/devices/plugs.py`, lines 109-129), including the
fields added by `AbstractNetworkedDevice` and
`AbstractWirelessNetworkedDevice`. -/
structure PlugRecord where
  device : Device
  _ip : JVal := .vnull
  _rssi : JVal := .vnull
  _ssid : JVal := .vnull
  _switch_state : Option DeviceProp := none
  _switch_state_timer : JVal := .vnull
  _status_light : Option DeviceProp := none
  _away_mode : Option DeviceProp := none
  deriving Repr

/-- `x if x else super()._extract_attribute(name, others)` (truthiness
test, used by the networked-device mixins), threading the mutated
dict. -/
def extractIfFalsy (fuel : Nat) (x : JVal) (name : String) (others : Bag) :
    Except PyErr (JVal × Bag) :=
  if truthy x then .ok (x, others)
  else do
    let (r, o) ← extract_attribute fuel name (.vdict others)
    match o with
    | .vdict d => pure (r.getD .vnull, d)
    | _ => pure (r.getD .vnull, [])

/-- The keyword bindings `Device.__init__` receives when a `Plug` is
constructed from a bag: each named parameter takes the value passed
down the constructor chain (absent keys become `None`). -/
def plugKw (typeArg : JVal) (others_N : Bag) : DeviceKw :=
  { type := typeArg,
    mac := dictGetD others_N "mac" .vnull,
    nickname := dictGetD others_N "nickname" .vnull,
    conn_state := dictGetD others_N "conn_state" .vnull,
    conn_state_ts := dictGetD others_N "conn_state_ts" .vnull,
    enr := dictGetD others_N "enr" .vnull,
    push_switch := dictGetD others_N "push_switch" .vnull,
    firmware_ver := dictGetD others_N "firmware_ver" .vnull,
    hardware_ver := dictGetD others_N "hardware_ver" .vnull,
    parent_device_mac := dictGetD others_N "parent_device_mac" .vnull,
    parent_device_enr := dictGetD others_N "parent_device_enr" .vnull,
    product_model := dictGetD others_N "product_model" .vnull,
    product_model_logo_url := dictGetD others_N "product_model_logo_url" .vnull,
    product_type := dictGetD others_N "product_type" .vnull,
    timezone_gmt_offset := dictGetD others_N "timezone_gmt_offset" .vnull,
    timezone_name := dictGetD others_N "timezone_name" .vnull,
    user_role := dictGetD others_N "user_role" .vnull }

/-- Calling the object held by a properties-class member as a function.
`DeviceProps.power_state` is declared `@classmethod @property`, so
class access already yields the `PropDef` (that is how `base.py` reads
`DeviceProps.online_state`, without parentheses); writing
`DeviceProps.power_state()` therefore applies the call operator to a
non-callable object and raises `TypeError`. -/
def pyCallPropDef (d : PropDef) : Except PyErr PropDef :=
  .error (.typeError ("object produced for " ++ d.pid ++ " is not callable"))

/-- `Plug(**bag)` translated from the constructor chain `Plug.__init__` →
`AbstractWirelessNetworkedDevice.__init__` →
`AbstractNetworkedDevice.__init__` → `Device.__init__`.  Each level
binds its named parameters out of the keyword expansion and passes the
rest down as a fresh dict, so each level pops only from its own dict;
this threading is exact for bags without shared nested containers.
Line 125 of `plugs.py` evaluates `DeviceProps.power_state()` - a call
on the non-callable object produced by the `@classmethod @property`
member - so construction raises `TypeError` there, on every bag,
before the later extractions and `show_unknown_key_warning` (whose
translations follow, matching the dead source lines 126-129).  The
returned string list holds the keys `show_unknown_key_warning` would
log. -/
def Plug.construct (fuel : Nat) (bag : Bag) :
    Except PyErr (PlugRecord × List String) := do
  let typeArg := dictGetD bag "type" (.vstr "Plug")
  let others_P := dictErase bag "type"
  let rssiArg := dictGetD others_P "rssi" .vnull
  let ssidArg := dictGetD others_P "ssid" .vnull
  let others_W := dictErase (dictErase others_P "rssi") "ssid"
  let ipArg := dictGetD others_W "ip" .vnull
  let others_N := dictErase others_W "ip"
  let kw : DeviceKw := plugKw typeArg others_N
  let others_D := dictEraseAll others_N deviceParamNames
  let (dev, _) ← Device.init fuel kw others_D
  let (ipv, _) ← extractIfFalsy fuel ipArg "ip" others_N
  let (rssiv, _) ← extractIfFalsy fuel rssiArg "rssi" others_W
  let (ssidv, _) ← extractIfFalsy fuel ssidArg "ssid" others_W
  let pdSw ← pyCallPropDef DeviceProps.power_state
  let swOpt ← extract_property fuel pdSw (.vdict others_P)
  let (sst, others_P2) ← extractIfNull fuel .vnull "switch_state_timer" others_P
  let slOpt ← extract_property fuel PlugProps.status_light (.vdict others_P2)
  let amOpt ← extract_property fuel PlugProps.away_mode (.vdict others_P2)
  let (_, warned) := show_unknown_key_warning others_P2
  pure ({ device := dev, _ip := ipv, _rssi := rssiv, _ssid := ssidv,
          _switch_state := swOpt, _switch_state_timer := sst,
          _status_light := slOpt, _away_mode := amOpt }, warned)

/-- `Plug.attributes`: the union of `Device.attributes`, `ip`,
`rssi`/`ssid` and `switch_state_timer`. -/
def Plug.attributes : List String :=
  ["binding_ts", "binding_user_nickname", "conn_state", "conn_state_ts", "enr",
   "event_master_switch", "firmware_ver", "first_activation_ts", "first_binding_ts",
   "hardware_ver", "ip", "is_in_auto", "mac", "nickname", "p2p_id", "p2p_type",
   "parent_device_enr", "parent_device_mac", "product_model", "product_type",
   "push_switch", "rssi", "ssid", "switch_state_timer", "timezone_gmt_offset",
   "timezone_name", "type", "user_role"]

/-- `getattr(self, key, None)` on a constructed `Plug` for the declared
attribute names: only the names below resolve to Python properties (or,
for `type`, the class attribute `"Plug"`, which shadows the inherited
property); every other declared attribute has no accessor and defaults
to `None`. -/
def Plug.getattr (p : PlugRecord) (k : String) : JVal :=
  if k = "mac" then p.device._mac
  else if k = "type" then .vstr "Plug"
  else if k = "nickname" then p.device._nickname
  else if k = "enr" then p.device._enr
  else if k = "push_switch" then p.device._push_switch
  else if k = "ip" then p._ip
  else if k = "rssi" then p._rssi
  else if k = "ssid" then p._ssid
  else .vnull

/-- A `Plug` exported back to a JSON-like dict
(`get_non_null_attributes`). -/
def Plug.export (p : PlugRecord) : Bag :=
  get_non_null_attributes Plug.attributes (Plug.getattr p)

/-- `Device.is_online` (base.py lines 315-317): `False` when the stored
property is absent, otherwise its value. -/
def Device.is_online_getter (p : Option DeviceProp) : JVal :=
  match p with
  | none => .vbool false
  | some q => q.value

/-- `SwitchableMixin.is_on` (base.py lines 490-491). -/
def SwitchableMixin.is_on (p : Option DeviceProp) : JVal :=
  match p with
  | none => .vbool false
  | some q => q.value

/-- `MotionMixin.motion_state` (base.py lines 440-441). -/
def MotionMixin.motion_state (p : Option DeviceProp) : JVal :=
  match p with
  | none => .vbool false
  | some q => q.value

/-- `ContactMixin.open_close_state` (base.py lines 458-459). -/
def ContactMixin.open_close_state (p : Option DeviceProp) : JVal :=
  match p with
  | none => .vbool false
  | some q => q.value

/-- `Light.brightness` (lights.py lines 381-383): `0` when the stored
property is absent. -/
def Light.brightness (p : Option DeviceProp) : JVal :=
  match p with
  | none => .vint 0
  | some q => q.value

/-- `Light.color_temp` (lights.py lines 391-393): `0` when the stored
property is absent. -/
def Light.color_temp (p : Option DeviceProp) : JVal :=
  match p with
  | none => .vint 0
  | some q => q.value



/-- `LightProps.brightness` (lights.py line 150), also exposed as
`BulbProps.brightness`: `PropDef("P1501", int,
acceptable_values=range(0, 100 + 1))`. -/
def LightProps.brightness : PropDef :=
  { pid := "P1501", type := .pint, acceptable_values := some (.intRange 0 101) }

/-- C9: the boolean and numeric state accessors never surface an absent
underlying property as `None`: with the stored property `None`,
`Device.is_online`, `SwitchableMixin.is_on`, `LockableMixin.lock_state`,
`ContactMixin.open_close_state` and `MotionMixin.motion_state` return
`False`, and `Light.brightness` and `Light.color_temp` return `0`. -/
theorem c9_absent_property_defaults :
    Device.is_online_getter none = JVal.vbool false ∧
    SwitchableMixin.is_on none = JVal.vbool false ∧
    lock_state_getter none = JVal.vbool false ∧
    ContactMixin.open_close_state none = JVal.vbool false ∧
    MotionMixin.motion_state none = JVal.vbool false ∧
    Light.brightness none = JVal.vint 0 ∧
    Light.color_temp none = JVal.vint 0 :=
  ⟨rfl, rfl, rfl, rfl, rfl, rfl, rfl⟩

/-- C4: evaluation of `PropDef.validate` at the failing input.  For the
brightness definition (`allowed_values = range(0, 101)`) the in-range
value `45` passes, but the out-of-range value `150` raises
`AttributeError` - not the documented `WyzeRequestError` - because the
failure branch formats the non-existent `self.acceptable_values`
attribute.  A type-incompatible string raises an uncaught `ValueError`
(only `TypeError` is converted). -/
theorem c4_validate_brightness_150 :
    LightProps.brightness.validate (.vint 45) = .ok () ∧
    LightProps.brightness.validate (.vint 150) = .error (.attributeError "acceptable_values") ∧
    LightProps.brightness.validate (.vstr "abc") =
      .error (.valueError ("invalid literal for int: " ++ "abc")) :=
  ⟨rfl, rfl, rfl⟩

/-- The lock raw bag of end-to-end scenario 3: `switch_state = 1`
delivered through a `property_list` entry (with a timestamp, which the
code requires). -/
def lockPlistBag : Bag :=
  [("property_list", .vlist [.vdict [("pid", .vstr "switch_state"), ("value", .vint 1), ("ts", .vint 99)]])]

/-- C6: evaluation at the failing input.  Extraction does flip the bit -
the stored `lock_state` property for `switch_state = 1` has value
`False` - but the `is_locked` accessor does not return `False`: the
mixin `lock_state` getter yields the boolean *value*, so
`super().lock_state.definition` raises `AttributeError`.  With
`switch_state` at the top level of the bag, construction itself raises
`AttributeError` reading `prop.ts`, since the scanned `DeviceProp` was
built without a timestamp and `_ts` was never assigned. -/
theorem c6_lock_is_locked_attribute_error :
    Lock.extract_lock_state 8 lockPlistBag =
      .ok (⟨LockProps.lock_state, some (.vdatetime 99), .vbool false⟩, lockPlistBag) ∧
    Lock.is_locked (some ⟨LockProps.lock_state, some (.vdatetime 99), .vbool false⟩) =
      .error (.attributeError "definition") ∧
    Lock.extract_lock_state 8 [("switch_state", .vint 1)] = .error (.attributeError "_ts") :=
  ⟨rfl, rfl, rfl⟩

/-- C2 counterexample: for the boolean property `P3`
(`PropDef("P3", bool, int, [0, 1])`) the raw wire value `2` is not one
of the recognised boolean encodings, yet the constructed
`PropertyValue` stores the raw `2` unchanged (with the coercion warning
logged), not an absent `None`. -/
theorem c2_counterexample_raw_two_kept :
    DeviceProp.make DeviceProps.power_state .vnull (.vint 2) =
      .ok (⟨DeviceProps.power_state, none, .vint 2⟩, true) ∧
    (JVal.vint 2 == JVal.vnull) = false :=
  ⟨rfl, rfl⟩

/-- Reduction lemma: monadic `pure` on `Except` is `Except.ok`. -/
@[simp]
theorem exceptPure_eq {ε α : Type} (a : α) : (pure a : Except ε α) = .ok a := rfl

/-- Reduction lemma for `Except.bind` on a success. -/
@[simp]
theorem exceptBind_ok {ε α β : Type} (a : α) (f : α → Except ε β) :
    (Except.ok a : Except ε α) >>= f = f a := rfl

/-- Reduction lemma for `Except.bind` on a failure. -/
@[simp]
theorem exceptBind_err {ε α β : Type} (e : ε) (f : α → Except ε β) :
    (Except.error e : Except ε α) >>= f = .error e := rfl

/-- Helper: a non-`vnull` value is not `==` to `vnull`. -/
theorem jval_beq_vnull_eq_false (v : JVal) (h : v ≠ JVal.vnull) :
    (v == JVal.vnull) = false := by
  cases v <;> first | exact absurd rfl h | rfl

/-- Helper: `strtobool` either recognises its input or raises
`ValueError`. -/
theorem strtobool_cases (s : String) :
    (∃ n, strtobool s = .ok n) ∨ (∃ m, strtobool s = .error (.valueError m)) := by
  simp only [strtobool]
  split
  · exact Or.inl ⟨1, rfl⟩
  · split
    · exact Or.inl ⟨0, rfl⟩
    · exact Or.inr ⟨_, rfl⟩

/-- C2: the boolean coercion as the code actually performs it, for every
property definition with boolean semantic type.  Wire values `0`,
`"0"`, `False`, `"false"` become semantic `False` and `1`, `"1"`,
`True`, `"true"` become semantic `True`; construction never raises; but
a wire value that `strtobool` cannot parse is stored *unchanged* (with
the warning logged), not treated as absent. -/
theorem c2_boolean_coercion (pid : String) (api : Option PType) (av : Option AcceptSet) :
    (∀ v, (v = JVal.vint 0 ∨ v = JVal.vstr "0" ∨ v = JVal.vbool false ∨ v = JVal.vstr "false") →
      DeviceProp.make ⟨pid, .pbool, api, av⟩ .vnull v =
        .ok (⟨⟨pid, .pbool, api, av⟩, none, .vbool false⟩, false)) ∧
    (∀ v, (v = JVal.vint 1 ∨ v = JVal.vstr "1" ∨ v = JVal.vbool true ∨ v = JVal.vstr "true") →
      DeviceProp.make ⟨pid, .pbool, api, av⟩ .vnull v =
        .ok (⟨⟨pid, .pbool, api, av⟩, none, .vbool true⟩, false)) ∧
    (∀ v, ∃ p w, DeviceProp.make ⟨pid, .pbool, api, av⟩ .vnull v = .ok (p, w)) ∧
    (∀ v, pyIsInstance v .pbool = false → v ≠ JVal.vnull →
      (∃ m, strtobool (pyStr v) = .error (.valueError m)) →
      DeviceProp.make ⟨pid, .pbool, api, av⟩ .vnull v =
        .ok (⟨⟨pid, .pbool, api, av⟩, none, v⟩, true)) := by
  refine ⟨?_, ?_, ?_, ?_⟩
  · rintro v (rfl | rfl | rfl | rfl) <;> rfl
  · rintro v (rfl | rfl | rfl | rfl) <;> rfl
  · intro v
    by_cases hnull : (v == JVal.vnull) = true
    · refine ⟨⟨⟨pid, .pbool, api, av⟩, none, v⟩, false, ?_⟩
      unfold DeviceProp.make
      simp [hnull, tsAttrOf]
    · by_cases hinst : pyIsInstance v PType.pbool = true
      · refine ⟨⟨⟨pid, .pbool, api, av⟩, none, v⟩, false, ?_⟩
        unfold DeviceProp.make
        simp [hnull, hinst, tsAttrOf]
      · rcases strtobool_cases (pyStr v) with ⟨n, hn⟩ | ⟨m, hm⟩
        · refine ⟨⟨⟨pid, .pbool, api, av⟩, none, .vbool (n == 1)⟩, false, ?_⟩
          unfold DeviceProp.make
          simp [hnull, hinst, coerceToType, hn, Except.map, tsAttrOf]
        · refine ⟨⟨⟨pid, .pbool, api, av⟩, none, v⟩, true, ?_⟩
          unfold DeviceProp.make
          simp [hnull, hinst, coerceToType, hm, Except.map, tsAttrOf]
  · intro v hinst hnull hm
    obtain ⟨m, hm⟩ := hm
    have hbeq : (v == JVal.vnull) = false := jval_beq_vnull_eq_false v hnull
    unfold DeviceProp.make
    simp [hbeq, hinst, coerceToType, hm, Except.map, tsAttrOf]

/-- C2 witness: the theorem applied at the `P3` definition, checking
both a recognised wire value (`0` coerces to `False`) and an
unrecognisable one (`2` is stored unchanged with the warning flag). -/
theorem c2_boolean_coercion_witness :
    DeviceProp.make ⟨"P3", .pbool, some .pint, none⟩ .vnull (.vint 0) =
      .ok (⟨⟨"P3", .pbool, some .pint, none⟩, none, .vbool false⟩, false) ∧
    DeviceProp.make ⟨"P3", .pbool, some .pint, none⟩ .vnull (.vint 2) =
      .ok (⟨⟨"P3", .pbool, some .pint, none⟩, none, .vint 2⟩, true) :=
  ⟨(c2_boolean_coercion "P3" (some .pint) none).1 (.vint 0) (Or.inl rfl),
   (c2_boolean_coercion "P3" (some .pint) none).2.2.2 (.vint 2) rfl
     (fun h => JVal.noConfusion h) ⟨"invalid truth value " ++ "2", rfl⟩⟩

/-- C3: wire round-tripping of `api_value` over the supported
(semantic type, wire type) pairs of the repository.  With no wire type
the semantic value is returned unchanged; boolean definitions with
integer wire type send `0`/`1` and with string wire type send
`"0"`/`"1"` (never `"true"`/`"false"`), round-tripping every value of
their `[0, 1]` / `["0", "1"]` allowed sets; integer definitions with
string wire type send the decimal string of the integer, the equivalent
wire form of every allowed value. -/
theorem c3_wire_roundtrip :
    (∀ p : DeviceProp, p.definition.api_type = none → p.api_value = .ok p.value) ∧
    (∀ (pid : String) (av : Option AcceptSet) (n : Int), n = 0 ∨ n = 1 →
      ∃ p, DeviceProp.make ⟨pid, .pbool, some .pint, av⟩ .vnull (.vint n) = .ok (p, false) ∧
        p.api_value = .ok (.vint n)) ∧
    (∀ (pid : String) (av : Option AcceptSet) (str : String), str = "0" ∨ str = "1" →
      ∃ p, DeviceProp.make ⟨pid, .pbool, some .pstr, av⟩ .vnull (.vstr str) = .ok (p, false) ∧
        p.api_value = .ok (.vstr str)) ∧
    (∀ (pid : String) (av : Option AcceptSet) (n : Int),
      ∃ p, DeviceProp.make ⟨pid, .pint, some .pstr, av⟩ .vnull (.vint n) = .ok (p, false) ∧
        p.api_value = .ok (.vstr (toString n))) := by
  refine ⟨?_, ?_, ?_, ?_⟩
  · intro p h
    unfold DeviceProp.api_value
    rw [h]
  · rintro pid av n (rfl | rfl)
    · exact ⟨⟨⟨pid, .pbool, some .pint, av⟩, none, .vbool false⟩, rfl, rfl⟩
    · exact ⟨⟨⟨pid, .pbool, some .pint, av⟩, none, .vbool true⟩, rfl, rfl⟩
  · rintro pid av str (rfl | rfl)
    · exact ⟨⟨⟨pid, .pbool, some .pstr, av⟩, none, .vbool false⟩, rfl, rfl⟩
    · exact ⟨⟨⟨pid, .pbool, some .pstr, av⟩, none, .vbool true⟩, rfl, rfl⟩
  · intro pid av n
    exact ⟨⟨⟨pid, .pint, some .pstr, av⟩, none, .vint n⟩, rfl, rfl⟩

/-- C3 witness: the round trip evaluated at the `P3` boolean/int
definition on wire `1`, the music-mode boolean/str definition on wire
`"1"`, and the music-sensitivity int/str definition on wire `45`. -/
theorem c3_wire_roundtrip_witness :
    (∃ p, DeviceProp.make ⟨"P3", .pbool, some .pint, none⟩ .vnull (.vint 1) = .ok (p, false) ∧
      p.api_value = .ok (.vint 1)) ∧
    (∃ p, DeviceProp.make ⟨"P1535", .pbool, some .pstr, none⟩ .vnull (.vstr "1") = .ok (p, false) ∧
      p.api_value = .ok (.vstr "1")) ∧
    (∃ p, DeviceProp.make ⟨"P1524", .pint, some .pstr, none⟩ .vnull (.vint 45) = .ok (p, false) ∧
      p.api_value = .ok (.vstr (toString (45 : Int)))) :=
  ⟨c3_wire_roundtrip.2.1 "P3" none 1 (Or.inr rfl),
   c3_wire_roundtrip.2.2.1 "P1535" none "1" (Or.inr rfl),
   c3_wire_roundtrip.2.2.2 "P1524" none 45⟩

/-- The non-success envelope of end-to-end scenario 4. -/
def tokenEnvelope : Bag := [("code", .vint 2001), ("msg", .vstr "AccessTokenError")]

/-- C7 counterexample: validating the envelope
`\x7b"code": 2001, "msg": "AccessTokenError"\x7d` does raise the API
error carrying the raw response, but its message is the fixed generic
`"The request to the Wyze API failed."` plus the echoed body - it does
not indicate that the access token has expired (the message never
mentions `expired`; the per-code message mapping in the source is
commented out). -/
theorem c7_counterexample_generic_message :
    WyzeResponse.validate ⟨200, .vdict tokenEnvelope⟩ =
      .error (.wyzeApiError
        ("The request to the Wyze API failed." ++ "\nThe server responded with: " ++
          pyRepr (.vdict tokenEnvelope))
        (.vdict tokenEnvelope)) ∧
    hasSubstr "expired".data
      ("The request to the Wyze API failed." ++ "\nThe server responded with: " ++
        pyRepr (.vdict tokenEnvelope)).data = false :=
  ⟨rfl, rfl⟩

/-- C7: response-envelope validation as the code actually performs it.
On HTTP 200 with a truthy JSON body, `int(data.get("code", 1)) == 1`
returns the response unchanged; any other code raises `WyzeApiError`
carrying the raw response, always with the generic message. -/
theorem c7_envelope_validation (d : Bag) :
    (truthy (.vdict d) = true →
      pyIntCoerce (dictGetD d "code" (.vint 1)) = .ok 1 →
      WyzeResponse.validate ⟨200, .vdict d⟩ = .ok ⟨200, .vdict d⟩) ∧
    (∀ n : Int, pyIntCoerce (dictGetD d "code" (.vint 1)) = .ok n → n ≠ 1 →
      WyzeResponse.validate ⟨200, .vdict d⟩ =
        .error (.wyzeApiError
          ("The request to the Wyze API failed." ++ "\nThe server responded with: " ++
            pyRepr (.vdict d))
          (.vdict d))) := by
  constructor
  · intro ht hc
    unfold WyzeResponse.validate
    simp [ht, hc, Except.map, pyFormat]
  · intro n hc hn
    unfold WyzeResponse.validate
    by_cases ht : truthy (.vdict d) = true
    · simp [ht, hc, Except.map, pyFormat, hn]
    · simp [Bool.of_not_eq_true ht, pyFormat]

/-- C7 witness: the success half applied to a concrete success envelope
and the failure half applied to the scenario-4 envelope. -/
theorem c7_envelope_validation_witness :
    WyzeResponse.validate ⟨200, .vdict [("code", .vint 1), ("data", .vint 3)]⟩ =
      .ok ⟨200, .vdict [("code", .vint 1), ("data", .vint 3)]⟩ ∧
    WyzeResponse.validate ⟨200, .vdict tokenEnvelope⟩ =
      .error (.wyzeApiError
        ("The request to the Wyze API failed." ++ "\nThe server responded with: " ++
          pyRepr (.vdict tokenEnvelope))
        (.vdict tokenEnvelope)) :=
  ⟨(c7_envelope_validation [("code", .vint 1), ("data", .vint 3)]).1 rfl rfl,
   (c7_envelope_validation tokenEnvelope).2 2001 rfl (by decide)⟩

/-- A blob codec whose protobuf stage fails (schema mismatch), the other
stages succeeding. -/
def protoFailCodec : BlobCodec :=
  ⟨fun _ => .ok [0], fun _ => .ok [0], fun _ => .error .protobufDecoderError,
   fun _ => .ok (.vdict [])⟩

/-- C8 counterexample: with base64 and deflate succeeding but the
protobuf decode failing (field-number drift), `parse_blob` propagates
the protobuf decoder error unchanged - not the single
`WyzeObjectFormationError` - because the `except` clause catches only
`binascii.Error` and `zlib.error`. -/
theorem c8_counterexample_protobuf_error_escapes :
    parse_blob protoFailCodec (some "AAECAw==") = .error .protobufDecoderError :=
  rfl

/-- C8: error channelling of the blob codec as the code actually
performs it.  A base64 failure (`binascii.Error`) or a deflate failure
(`zlib.error`) is re-raised as the object-formation error; a failure of
the protobuf stage propagates as whatever error the protobuf library
raised. -/
theorem c8_blob_codec_errors (c : BlobCodec) (b : String) :
    (c.b64decode b = .error .binasciiError →
      parse_blob c (some b) =
        .error (.wyzeObjectFormationError "encountered an error parsing map blob")) ∧
    (∀ bs, c.b64decode b = .ok bs → c.zlibDecompress bs = .error .zlibError →
      parse_blob c (some b) =
        .error (.wyzeObjectFormationError "encountered an error parsing map blob")) ∧
    (∀ bs bs2 e, c.b64decode b = .ok bs → c.zlibDecompress bs = .ok bs2 →
      c.protobufToJson bs2 = .error e → e ≠ .binasciiError → e ≠ .zlibError →
      parse_blob c (some b) = .error e) := by
  refine ⟨?_, ?_, ?_⟩
  · intro h
    unfold parse_blob
    simp [h]
  · intro bs h1 h2
    unfold parse_blob
    simp [h1, h2]
  · intro bs bs2 e h1 h2 h3 he1 he2
    unfold parse_blob
    simp only [h1, h2, h3, exceptBind_ok, exceptBind_err]
    cases e <;> first | rfl | exact absurd rfl he1 | exact absurd rfl he2

/-- C8 witness: the wrapping branch evaluated on a codec whose deflate
stage fails, and the escaping branch on `protoFailCodec`. -/
theorem c8_blob_codec_errors_witness :
    parse_blob ⟨fun _ => .ok [7], fun _ => .error .zlibError, fun _ => .ok "", fun _ => .ok .vnull⟩
      (some "x") = .error (.wyzeObjectFormationError "encountered an error parsing map blob") ∧
    parse_blob protoFailCodec (some "AAECAw==") = .error .protobufDecoderError :=
  ⟨(c8_blob_codec_errors
      ⟨fun _ => .ok [7], fun _ => .error .zlibError, fun _ => .ok "", fun _ => .ok .vnull⟩
      "x").2.1 [7] rfl rfl,
   (c8_blob_codec_errors protoFailCodec "AAECAw==").2.2 [0] [0] .protobufDecoderError rfl rfl rfl
     (fun h => PyErr.noConfusion h) (fun h => PyErr.noConfusion h)⟩

/-- Reduction lemma: Python `==` on two strings is string equality. -/
@[simp]
theorem pyEq_vstr_self (s t : String) : pyEq (.vstr s) (.vstr t) = (s == t) := rfl

/-- C10 counterexample: extracting `P3` from
`\x7b"device_params": \x7b"P3": 1\x7d\x7d` returns the value but also pops
`P3` out of the nested `device_params` dict, so a match under
`device_params` does *not* leave the input bag unchanged. -/
theorem c10_counterexample_nested_pop :
    extract_attribute 4 "P3" (.vdict [("device_params", .vdict [("P3", .vint 1)])]) =
      .ok (some (.vint 1), .vdict [("device_params", .vdict [])]) ∧
    (JVal.vdict [("device_params", .vdict [])] ==
      JVal.vdict [("device_params", .vdict [("P3", .vint 1)])]) = false :=
  ⟨rfl, rfl⟩

/-- C10: the mutation behaviour of `_extract_attribute`, location by
location.  A top-level match is popped from the bag; a match inside
`property_list` or `data.property_list` leaves the bag unchanged; a
match under `device_params` or `device_setting` is popped from that
nested dict (so a second extraction of the same key from the mutated
bag returns nothing in the top-level, `device_params` and
`device_setting` cases). -/
theorem c10_extract_attribute_mutation (name : String) (v : JVal)
    (h1 : name ≠ "property_list") (h2 : name ≠ "data")
    (h3 : name ≠ "device_params") (h4 : name ≠ "device_setting") :
    (∀ rest : Bag, extract_attribute 4 name (.vdict ((name, v) :: rest)) = .ok (some v, .vdict rest)) ∧
    (extract_attribute 4 name
        (.vdict [("property_list", .vlist [.vdict [("pid", .vstr name), ("value", v)]])]) =
      .ok (some v, .vdict [("property_list", .vlist [.vdict [("pid", .vstr name), ("value", v)]])])) ∧
    (extract_attribute 4 name
        (.vdict [("data", .vdict [("property_list", .vlist [.vdict [("pid", .vstr name), ("value", v)]])])]) =
      .ok (some v,
        .vdict [("data", .vdict [("property_list", .vlist [.vdict [("pid", .vstr name), ("value", v)]])])])) ∧
    (extract_attribute 4 name (.vdict [("device_params", .vdict [(name, v)])]) =
        .ok (some v, .vdict [("device_params", .vdict [])]) ∧
      extract_attribute 4 name (.vdict [("device_params", .vdict [])]) =
        .ok (none, .vdict [("device_params", .vdict [])])) ∧
    (extract_attribute 4 name (.vdict [("device_setting", .vdict [(name, v)])]) =
        .ok (some v, .vdict [("device_setting", .vdict [])]) ∧
      extract_attribute 4 name (.vdict [("device_setting", .vdict [])]) =
        .ok (none, .vdict [("device_setting", .vdict [])])) := by
  have e1 : ("property_list" == name) = false := beq_eq_false_iff_ne.mpr (Ne.symm h1)
  have e2 : ("data" == name) = false := beq_eq_false_iff_ne.mpr (Ne.symm h2)
  have e3 : ("device_params" == name) = false := beq_eq_false_iff_ne.mpr (Ne.symm h3)
  have e4 : ("device_setting" == name) = false := beq_eq_false_iff_ne.mpr (Ne.symm h4)
  refine ⟨?_, ?_, ?_, ⟨?_, ?_⟩, ⟨?_, ?_⟩⟩ <;>
    simp [extract_attribute, dictMem, dictGet, dictGetD, dictErase, dictSet, pyIn,
      scanPropertyList, scanPlistEntries, pySubscriptStr, pyEq_vstr_self, e1, e2, e3, e4]

/-- C10 witness: the mutation characterisation applied at key `P3`: a
top-level match is popped; a `device_setting` match is popped from the
nested dict. -/
theorem c10_extract_attribute_mutation_witness :
    extract_attribute 4 "P3" (.vdict [("P3", .vint 7)]) = .ok (some (.vint 7), .vdict []) ∧
    extract_attribute 4 "P3" (.vdict [("device_setting", .vdict [("P3", .vint 1)])]) =
      .ok (some (.vint 1), .vdict [("device_setting", .vdict [])]) :=
  ⟨(c10_extract_attribute_mutation "P3" (.vint 7)
      (by decide) (by decide) (by decide) (by decide)).1 [],
   ((c10_extract_attribute_mutation "P3" (.vint 1)
      (by decide) (by decide) (by decide) (by decide)).2.2.2.2).1⟩

/-- The bag refuting the unconditional precedence reading of the lookup
chain: `property_list` is present but lacks the pid, while
`device_params` and `device_setting` both hold the key (with different
values). -/
def shadowBag : Bag :=
  [("property_list", .vlist [.vdict [("pid", .vstr "Q"), ("value", .vint 9)]]),
   ("device_params", .vdict [("P3", .vint 1)]),
   ("device_setting", .vdict [("P3", .vint 2)])]

/-- C1 counterexample: `shadowBag` holds `P3` at locations 4
(`device_params`, value `1`) and 5 (`device_setting`, value `2`), so
under the claim the extraction should yield `1`; but because a
`property_list` is present (without the pid) the `elif` chain stops
there and the extraction yields nothing. -/
theorem c1_counterexample_shadowed_lookup :
    extract_attribute 4 "P3" (.vdict shadowBag) = .ok (none, .vdict shadowBag) ∧
    dictGet [("P3", JVal.vint 1)] "P3" = some (.vint 1) :=
  ⟨rfl, rfl⟩

/-- One `\x7bpid, value\x7d` entry of a `property_list`: either the
matching entry carrying the value, or a non-matching entry (its pid is
the key with `~` appended). -/
def plistEntryFor (name : String) : Option JVal → JVal
  | some v => .vdict [("pid", .vstr name), ("value", v)]
  | none => .vdict [("pid", .vstr (name ++ "~")), ("value", .vint 99)]

/-- The contents of a `device_params` / `device_setting` dict: either
the key with its value, or a non-matching key. -/
def paramsDictFor (name : String) : Option JVal → Bag
  | some v => [(name, v)]
  | none => [(name ++ "~", .vint 99)]

/-- A raw bag with the five lookup locations of
`JsonObject._extract_attribute` independently populated: `none` means
the location container is absent, `some none` that the container is
present without the key, `some (some v)` that it holds the key with
value `v`. -/
def mkFiveBag (name : String) (top : Option JVal) (pl dpl dp ds : Option (Option JVal)) : Bag :=
  (match top with | some v => [(name, v)] | none => []) ++
  (match pl with | some o => [("property_list", .vlist [plistEntryFor name o])] | none => []) ++
  (match dpl with
   | some o => [("data", .vdict [("property_list", .vlist [plistEntryFor name o])])]
   | none => []) ++
  (match dp with | some o => [("device_params", .vdict (paramsDictFor name o))] | none => []) ++
  (match ds with | some o => [("device_setting", .vdict (paramsDictFor name o))] | none => [])

/-- The prioritised lookup as the code performs it, written over the
five-location description: top-level key first; else, when a
`property_list` container is present, its scan result - even when that
is nothing; else likewise for `data.property_list`; else the key under
`device_params` if that container holds it; else under
`device_setting`. -/
def fiveBagSpec (top : Option JVal) (pl dpl dp ds : Option (Option JVal)) : Option JVal :=
  match top with
  | some v => some v
  | none =>
    match pl with
    | some o => o
    | none =>
      match dpl with
      | some o => o
      | none =>
        match dp with
        | some (some v) => some v
        | _ =>
          match ds with
          | some (some v) => some v
          | _ => none

set_option maxHeartbeats 3200000 in
/-- C1: the extracted value over every population of the five lookup
locations equals the container-presence-guarded priority `fiveBagSpec`:
the first match wins and later locations are not consulted once a
*container* is selected, so a present `property_list` (or
`data.property_list`) without the pid ends the lookup with no value;
when no such container shadows it, the result is the value at the
highest-priority location that contains the key. -/
theorem c1_extract_attribute_precedence (name : String)
    (h1 : name ≠ "property_list") (h2 : name ≠ "data")
    (h3 : name ≠ "device_params") (h4 : name ≠ "device_setting")
    (top : Option JVal) (pl dpl dp ds : Option (Option JVal)) :
    (extract_attribute 4 name (.vdict (mkFiveBag name top pl dpl dp ds))).map Prod.fst =
      .ok (fiveBagSpec top pl dpl dp ds) := by
  have e1 : ("property_list" == name) = false := beq_eq_false_iff_ne.mpr (Ne.symm h1)
  have e2 : ("data" == name) = false := beq_eq_false_iff_ne.mpr (Ne.symm h2)
  have e3 : ("device_params" == name) = false := beq_eq_false_iff_ne.mpr (Ne.symm h3)
  have e4 : ("device_setting" == name) = false := beq_eq_false_iff_ne.mpr (Ne.symm h4)
  have e1s : (name == "property_list") = false := beq_eq_false_iff_ne.mpr h1
  have e2s : (name == "data") = false := beq_eq_false_iff_ne.mpr h2
  have e3s : (name == "device_params") = false := beq_eq_false_iff_ne.mpr h3
  have e4s : (name == "device_setting") = false := beq_eq_false_iff_ne.mpr h4
  have hne : name ≠ name ++ "~" := by
    intro h
    have hlen := congrArg String.length h
    rw [String.length_append] at hlen
    have hone : ("~" : String).length = 1 := rfl
    omega
  have et1 : (name == name ++ "~") = false := beq_eq_false_iff_ne.mpr hne
  have et2 : (name ++ "~" == name) = false := beq_eq_false_iff_ne.mpr (Ne.symm hne)
  rcases top with _ | tv <;> rcases pl with _ | plo <;> rcases dpl with _ | dplo <;>
    rcases dp with _ | dpo <;> rcases ds with _ | dso
  all_goals try rcases plo with _ | plv
  all_goals try rcases dplo with _ | dplv
  all_goals try rcases dpo with _ | dpv
  all_goals try rcases dso with _ | dsv
  all_goals
    simp [mkFiveBag, plistEntryFor, paramsDictFor, fiveBagSpec, Except.map,
      extract_attribute, dictMem, dictGet, dictGetD, dictErase, dictSet, pyIn,
      scanPropertyList, scanPlistEntries, pySubscriptStr, pyEq_vstr_self,
      e1, e2, e3, e4, e1s, e2s, e3s, e4s, et1, et2]

/-- C1 witness: the precedence theorem applied at key `P3` with the key
present under both `device_params` (value `1`) and `device_setting`
(value `2`) and no list container present: the higher-priority
`device_params` value is returned. -/
theorem c1_extract_attribute_precedence_witness :
    (extract_attribute 4 "P3"
        (.vdict (mkFiveBag "P3" none none none (some (some (.vint 1)))
          (some (some (.vint 2)))))).map Prod.fst = .ok (some (.vint 1)) :=
  c1_extract_attribute_precedence "P3" (by decide) (by decide) (by decide) (by decide)
    none none none (some (some (.vint 1))) (some (some (.vint 2)))

/-- Scalar (non-container) JSON values. -/
def isScalar : JVal → Bool
  | .vnull => true
  | .vbool _ => true
  | .vint _ => true
  | .vstr _ => true
  | _ => false

/-- A well-shaped flat raw bag for `Plug` construction: scalar values
only, and none of the nested-container keys the extraction chain
dereferences. -/
def plugSafeBag (b : Bag) : Bool :=
  b.all (fun kv => isScalar kv.2) &&
  !(dictMem b "property_list") && !(dictMem b "data") &&
  !(dictMem b "device_params") && !(dictMem b "device_setting") && !(dictMem b "props")

/-- Erasing any key preserves key absence. -/
theorem dictMem_erase_false {b : Bag} {k : String} (h : dictMem b k = false) (j : String) :
    dictMem (dictErase b j) k = false := by
  induction b with
  | nil => rfl
  | cons hd tl ih =>
      obtain ⟨l, v⟩ := hd
      by_cases hlk : (l == k) = true
      · simp [dictMem, dictGet, hlk] at h
      · have htl : dictMem tl k = false := by simpa [dictMem, dictGet, hlk] using h
        by_cases hlj : (l == j) = true
        · simpa [dictErase, hlj] using htl
        · simpa [dictErase, hlj, dictMem, dictGet, hlk] using ih htl

/-- Erasing a key preserves the value predicate. -/
theorem dictErase_all {b : Bag} {P : String × JVal → Bool} (h : b.all P = true) (j : String) :
    (dictErase b j).all P = true := by
  induction b with
  | nil => rfl
  | cons hd tl ih =>
      obtain ⟨l, v⟩ := hd
      simp only [List.all_cons, Bool.and_eq_true] at h
      by_cases hlj : (l == j) = true
      · simpa [dictErase, hlj] using h.2
      · simp [dictErase, hlj, h.1, ih h.2]

/-- Safety is preserved by erasing a key. -/
theorem plugSafeBag_erase {b : Bag} (h : plugSafeBag b = true) (j : String) :
    plugSafeBag (dictErase b j) = true := by
  simp only [plugSafeBag, Bool.and_eq_true, Bool.not_eq_true'] at h ⊢
  exact ⟨⟨⟨⟨⟨dictErase_all h.1.1.1.1.1 j, dictMem_erase_false h.1.1.1.1.2 j⟩,
    dictMem_erase_false h.1.1.1.2 j⟩, dictMem_erase_false h.1.1.2 j⟩,
    dictMem_erase_false h.1.2 j⟩, dictMem_erase_false h.2 j⟩

/-- An absent key looks up to `none`. -/
theorem dictGet_eq_none {b : Bag} {k : String} (h : dictMem b k = false) :
    dictGet b k = none := by
  cases hdg : dictGet b k with
  | none => rfl
  | some v => simp [dictMem, hdg] at h

/-- Erasing an absent key is the identity. -/
theorem dictErase_of_not_mem {b : Bag} {k : String} (h : dictMem b k = false) :
    dictErase b k = b := by
  induction b with
  | nil => rfl
  | cons hd tl ih =>
      obtain ⟨l, v⟩ := hd
      by_cases hlk : (l == k) = true
      · simp [dictMem, dictGet, hlk] at h
      · have htl : dictMem tl k = false := by simpa [dictMem, dictGet, hlk] using h
        simp [dictErase, hlk, ih htl]

/-- Keys other than the erased one survive an erase. -/
theorem mem_dictKeys_erase {b : Bag} {k : String} (h : k ∈ dictKeys b) (j : String)
    (hne : k ≠ j) : k ∈ dictKeys (dictErase b j) := by
  induction b with
  | nil => simp [dictKeys] at h
  | cons hd tl ih =>
      obtain ⟨l, v⟩ := hd
      simp only [dictKeys, List.map_cons, List.mem_cons] at h
      by_cases hlj : (l == j) = true
      · rcases h with rfl | h
        · exact absurd (eq_of_beq hlj) hne
        · simpa [dictErase, hlj, dictKeys] using h
      · rcases h with rfl | h
        · simp [dictErase, hlj, dictKeys]
        · have hrec := ih h
          simp only [dictKeys] at hrec
          simp [dictErase, hlj, dictKeys, hrec]

/-- On a safe bag, `_extract_attribute` reduces to a top-level pop. -/
theorem extract_attribute_safe {b : Bag} (h : plugSafeBag b = true) (g : Nat) (name : String) :
    extract_attribute (g + 1) name (.vdict b) = .ok (dictGet b name, .vdict (dictErase b name)) := by
  simp only [plugSafeBag, Bool.and_eq_true, Bool.not_eq_true'] at h
  obtain ⟨⟨⟨⟨⟨_, hpl⟩, hdata⟩, hdp⟩, hds⟩, hprops⟩ := h
  unfold extract_attribute
  by_cases hmem : dictMem b name = true
  · simp [hmem]
  · have hmem' : dictMem b name = false := Bool.of_not_eq_true hmem
    simp [hmem', hpl, hdata, hdp, hds, dictGet_eq_none hpl, dictGet_eq_none hdata,
      dictGet_eq_none hdp, dictGet_eq_none hds, dictGet_eq_none hmem',
      dictErase_of_not_mem hmem']

/-- `DeviceProp.__init__` never raises for a boolean-typed definition:
the only coercion failure is `strtobool`'s `ValueError`, which is
caught. -/
theorem deviceProp_make_bool_ok (d : PropDef) (hd : d.type = .pbool) (ts v : JVal) :
    ∃ p w, DeviceProp.make d ts v = .ok (p, w) := by
  by_cases hnull : (v == JVal.vnull) = true
  · exact ⟨⟨d, tsAttrOf ts, v⟩, false, by unfold DeviceProp.make; simp [hnull]⟩
  · by_cases hinst : pyIsInstance v d.type = true
    · exact ⟨⟨d, tsAttrOf ts, v⟩, false, by unfold DeviceProp.make; simp [hnull, hinst]⟩
    · have hinst2 : pyIsInstance v PType.pbool = false := by
        rw [hd] at hinst
        exact Bool.of_not_eq_true hinst
      rcases strtobool_cases (pyStr v) with ⟨n, hn⟩ | ⟨m, hm⟩
      · exact ⟨⟨d, tsAttrOf ts, .vbool (n == 1)⟩, false, by
          unfold DeviceProp.make
          simp [hnull, hinst, hinst2, hd, coerceToType, hn, Except.map]⟩
      · exact ⟨⟨d, tsAttrOf ts, v⟩, true, by
          unfold DeviceProp.make
          simp [hnull, hinst, hinst2, hd, coerceToType, hm, Except.map]⟩

/-- The dict-items scan of `_extract_property` never raises for a
boolean-typed definition. -/
theorem scanDictItems_bool_ok (d : PropDef) (hd : d.type = .pbool) (b : Bag) :
    ∃ r, scanDictItems d b = .ok r := by
  induction b with
  | nil => exact ⟨none, rfl⟩
  | cons hd' tl ih =>
      obtain ⟨l, v⟩ := hd'
      by_cases hl : (l == d.pid) = true
      · obtain ⟨p, w, hp⟩ := deviceProp_make_bool_ok d hd .vnull v
        exact ⟨some p, by simp [scanDictItems, hl, hp, Except.map]⟩
      · obtain ⟨r, hr⟩ := ih
        exact ⟨r, by simp [scanDictItems, hl, hr]⟩

/-- On a safe bag, `_extract_property` is the plain dict-items scan. -/
theorem extract_property_safe {b : Bag} (h : plugSafeBag b = true) (g : Nat) (pd : PropDef) :
    extract_property (g + 1) pd (.vdict b) = scanDictItems pd b := by
  simp only [plugSafeBag, Bool.and_eq_true, Bool.not_eq_true'] at h
  obtain ⟨⟨⟨⟨⟨_, hpl⟩, hdata⟩, _⟩, _⟩, hprops⟩ := h
  unfold extract_property
  simp [dictGet_eq_none hdata, hprops, hpl]

/-- On a safe bag, `extractIfNull` with a null argument pops the key. -/
theorem extractIfNull_null_safe {b : Bag} (h : plugSafeBag b = true) (g : Nat) (name : String) :
    extractIfNull (g + 1) .vnull name b =
      .ok ((dictGet b name).getD .vnull, dictErase b name) := by
  unfold extractIfNull
  have hb : (JVal.vnull == JVal.vnull) = true := rfl
  simp [hb, extract_attribute_safe h g name]

/-- `extractIfNull` with a non-null argument returns it unchanged. -/
theorem extractIfNull_notnull (g : Nat) {x : JVal} (hx : (x == JVal.vnull) = false)
    (name : String) (b : Bag) : extractIfNull g x name b = .ok (x, b) := by
  unfold extractIfNull
  simp [hx]

/-- On a safe bag, `extractIfNull` always succeeds, mutates at most the
looked-up key, and preserves safety. -/
theorem extractIfNull_ok {b : Bag} (h : plugSafeBag b = true) (g : Nat) (x : JVal)
    (name : String) :
    ∃ v b2, extractIfNull (g + 1) x name b = .ok (v, b2) ∧ plugSafeBag b2 = true ∧
      (b2 = b ∨ b2 = dictErase b name) := by
  by_cases hx : (x == JVal.vnull) = true
  · have hx' : x = JVal.vnull := by
      cases x
      case vnull => rfl
      all_goals exact absurd hx (fun hh => Bool.false_ne_true hh)
    subst hx'
    exact ⟨_, _, extractIfNull_null_safe h g name, plugSafeBag_erase h name, Or.inr rfl⟩
  · exact ⟨x, b, extractIfNull_notnull (g + 1) (Bool.of_not_eq_true hx) name b, h, Or.inl rfl⟩

/-- On a safe bag, `extractIfFalsy` always succeeds and leaves the bag
unchanged up to the popped key. -/
theorem extractIfFalsy_ok {b : Bag} (h : plugSafeBag b = true) (g : Nat) (x : JVal)
    (name : String) :
    ∃ v b2, extractIfFalsy (g + 1) x name b = .ok (v, b2) := by
  by_cases hx : truthy x = true
  · exact ⟨x, b, by unfold extractIfFalsy; simp [hx]⟩
  · refine ⟨(dictGet b name).getD .vnull, dictErase b name, ?_⟩
    unfold extractIfFalsy
    simp [Bool.of_not_eq_true hx, extract_attribute_safe h g name]

/-- Reduction lemma for `Except.map` on a success. -/
@[simp]
theorem exceptMap_ok {ε α β : Type} (f : α → β) (a : α) :
    Except.map f (.ok a : Except ε α) = .ok (f a) := rfl

/-- Reduction lemma for `Except.map` on a failure. -/
@[simp]
theorem exceptMap_err {ε α β : Type} (f : α → β) (e : ε) :
    Except.map f (.error e : Except ε α) = .error e := rfl

/-- On a safe keyword-rest dict, `Device.__init__` never raises. -/
theorem device_init_ok (g : Nat) (kw : DeviceKw) {b : Bag} (hb : plugSafeBag b = true) :
    ∃ dev b2, Device.init (g + 1) kw b = .ok (dev, b2) := by
  obtain ⟨v1, b1, h1, hs1, -⟩ := extractIfNull_ok hb g kw.type "product_type"
  obtain ⟨v2, b2, h2, hs2, -⟩ := extractIfNull_ok hs1 g kw.firmware_ver "firmware_ver"
  obtain ⟨v3, b3, h3, hs3, -⟩ := extractIfNull_ok hs2 g kw.hardware_ver "hardware_ver"
  obtain ⟨v4, b4, h4, hs4, -⟩ := extractIfNull_ok hs3 g kw.product_model_logo_url
    "product_model_logo_url"
  obtain ⟨v5, b5, h5, hs5, -⟩ := extractIfNull_ok hs4 g kw.product_model "product_model"
  obtain ⟨v6, b6, h6, hs6, -⟩ := extractIfNull_ok hs5 g kw.product_type "product_type"
  obtain ⟨v7, b7, h7, hs7, -⟩ := extractIfNull_ok hs6 g kw.timezone_gmt_offset
    "timezone_gmt_offset"
  obtain ⟨v8, b8, h8, hs8, -⟩ := extractIfNull_ok hs7 g kw.timezone_name "timezone_name"
  by_cases hc : (!(kw.conn_state == JVal.vnull) && !(kw.conn_state_ts == JVal.vnull)) = true
  · obtain ⟨pp, ww, hp⟩ := deviceProp_make_bool_ok DeviceProps.online_state rfl
      kw.conn_state_ts kw.conn_state
    refine ⟨⟨v1, kw.mac, kw.nickname, some pp, kw.enr, kw.push_switch, v2, v3,
      (if !(kw.parent_device_mac == JVal.vnull) then
        some (kw.parent_device_mac, kw.parent_device_enr)
      else none), v4, v5, v6, v7, v8, kw.user_role⟩, b8, ?_⟩
    unfold Device.init
    rw [h1]
    simp only [exceptBind_ok, hc, eq_self_iff_true, if_true, hp, exceptMap_ok,
      h2, h3, h4, h5, h6, h7, h8, exceptPure_eq]
  · obtain ⟨r, hr⟩ := scanDictItems_bool_ok DeviceProps.online_state rfl b1
    refine ⟨⟨v1, kw.mac, kw.nickname, r, kw.enr, kw.push_switch, v2, v3,
      (if !(kw.parent_device_mac == JVal.vnull) then
        some (kw.parent_device_mac, kw.parent_device_enr)
      else none), v4, v5, v6, v7, v8, kw.user_role⟩, b8, ?_⟩
    unfold Device.init
    rw [h1]
    simp only [exceptBind_ok, Bool.of_not_eq_true hc, Bool.false_eq_true, if_false,
      extract_property_safe hs1 g, hr, h2, h3, h4, h5, h6, h7, h8, exceptPure_eq]

/-- Safety is preserved by erasing a list of keys. -/
theorem plugSafeBag_eraseAll {b : Bag} (h : plugSafeBag b = true) (ks : List String) :
    plugSafeBag (dictEraseAll b ks) = true := by
  induction ks generalizing b with
  | nil => exact h
  | cons k rest ih => exact ih (plugSafeBag_erase h k)

/-- Membership through sorted insertion. -/
theorem mem_insertSorted {k s : String} {l : List String} (h : k ∈ insertSorted s l) :
    k = s ∨ k ∈ l := by
  induction l with
  | nil => simpa [insertSorted] using h
  | cons t rest ih =>
      simp only [insertSorted] at h
      by_cases hle : strLeB s t = true
      · rw [if_pos hle] at h
        exact List.mem_cons.mp h
      · rw [if_neg hle] at h
        rcases List.mem_cons.mp h with rfl | h2
        · exact Or.inr (List.mem_cons_self _ _)
        · rcases ih h2 with rfl | hmem
          · exact Or.inl rfl
          · exact Or.inr (List.mem_cons_of_mem _ hmem)

/-- `sorted` does not invent keys. -/
theorem mem_sortStrings {k : String} {l : List String} (h : k ∈ sortStrings l) : k ∈ l := by
  induction l with
  | nil => simp [sortStrings] at h
  | cons t rest ih =>
      rcases mem_insertSorted (by simpa [sortStrings] using h) with rfl | hmem
      · exact List.mem_cons_self _ _
      · exact List.mem_cons_of_mem _ (ih hmem)

/-- Every key of an exported dict is a declared attribute. -/
theorem export_keys_sub {attrs : List String} {getter : String → JVal} {k : String}
    (h : k ∈ dictKeys (get_non_null_attributes attrs getter)) : k ∈ attrs := by
  simp only [get_non_null_attributes, dictKeys] at h
  obtain ⟨⟨k2, v2⟩, hmem, hfst⟩ := List.mem_map.mp h
  obtain ⟨a, hasort, hfa⟩ := List.mem_filterMap.mp hmem
  by_cases hne : is_not_empty (getter a) = true
  · simp only [hne, if_true, Option.some.injEq] at hfa
    cases hfa
    cases hfst
    exact mem_sortStrings hasort
  · simp [Bool.of_not_eq_true hne] at hfa

/-- A member key makes a dict non-empty. -/
theorem dictKeys_pos {k : String} {b : Bag} (h : k ∈ dictKeys b) : b.length > 0 := by
  cases b with
  | nil => simp [dictKeys] at h
  | cons hd tl => simp

/-- Every key the `Plug` constructor chain claims: declared attributes,
constructor parameters at every level, extraction targets, property
ids, and the container keys of the lookup chain. -/
def plugReservedKeys : List String :=
  ["binding_ts", "binding_user_nickname", "conn_state", "conn_state_ts", "data",
   "device_params", "device_setting", "enr", "event_master_switch", "firmware_ver",
   "first_activation_ts", "first_binding_ts", "hardware_ver", "ip", "is_in_auto", "mac",
   "nickname", "p2p_id", "p2p_type", "parent_device_enr", "parent_device_mac",
   "product_model", "product_model_logo_url", "product_type", "property_list", "props",
   "push_switch", "rssi", "ssid", "switch_state_timer", "timezone_gmt_offset",
   "timezone_name", "type", "user_role", "P3", "P5", "P13", "P1614"]

/-- C5: evaluation at the failing input.  `Plug(**bag)` raises
`TypeError` on every bag - even the empty one - because `Plug.__init__`
line 125 evaluates `DeviceProps.power_state()`, a call applied to the
non-callable object the `@classmethod @property` member produces, so
the unknown-key warning and the export are never reached.  (Had
construction succeeded, the export could only emit declared attribute
keys: see `export_keys_sub`.) -/
theorem c5_plug_construction_raises_type_error :
    Plug.construct 4 [("mac", .vstr "ABC"), ("foo", .vint 7)] =
      .error (.typeError ("object produced for " ++ "P3" ++ " is not callable")) ∧
    Plug.construct 4 [] =
      .error (.typeError ("object produced for " ++ "P3" ++ " is not callable")) :=
  ⟨rfl, rfl⟩

end WyzeSdk
